import Mathlib

/-!
Shallow embedding of the interactive logic in `script.js` of the
web-agent-filterer repository: the animated-counter engine, the
IntersectionObserver-based activation engine (counter / reveal /
lazy-media observers), the FAQ accordion, and the dark-mode toggle.

JavaScript numbers are modelled as exact rationals extended with a NaN
element (`JsNum`): the quantities involved (integer targets divided by
125, sums thereof) are small exact rationals, and the only NaN source is
`parseInt` on unparsable input, whose comparisons are all false.
-/

namespace Script

/-- A JavaScript number: either NaN or an exact rational value. -/
inductive JsNum where
  | nan : JsNum
  | num : ℚ → JsNum
deriving DecidableEq, Repr

/-- JavaScript addition: NaN propagates. -/
def jsAdd : JsNum → JsNum → JsNum
  | JsNum.num a, JsNum.num b => JsNum.num (a + b)
  | _, _ => JsNum.nan

/-- JavaScript `<` comparison: any comparison with NaN is false. -/
def jsLt : JsNum → JsNum → Bool
  | JsNum.num a, JsNum.num b => decide (a < b)
  | _, _ => false

/-- `Math.floor`: NaN propagates, otherwise the integer floor. -/
def jsFloor : JsNum → JsNum
  | JsNum.nan => JsNum.nan
  | JsNum.num a => JsNum.num ((⌊a⌋ : ℤ) : ℚ)

/-- `const increment = target / (duration / 16)` with `duration = 2000`,
so the divisor is exactly 125 (src/script.js line 39). -/
def counterIncrement (target : JsNum) : JsNum :=
  match target with
  | JsNum.nan => JsNum.nan
  | JsNum.num q => JsNum.num (q / 125)

/-- The recursive `updateCounter` loop (src/script.js lines 42-50),
fuel-indexed. Each call does `current += increment`; if `current < target`
it writes `Math.floor(current)` to the display and schedules itself again,
otherwise it writes `target` and stops. Returns the sequence of values
written to `counter.textContent` and whether the loop reached its
terminating branch within the given fuel. -/
def updateCounterRun (target : JsNum) : Nat → JsNum → List JsNum × Bool
  | 0, _ => ([], false)
  | n + 1, current =>
    let current1 := jsAdd current (counterIncrement target)
    if jsLt current1 target then
      let rest := updateCounterRun target n current1
      (jsFloor current1 :: rest.1, rest.2)
    else
      ([target], true)

/-- The full counter animation started at activation: `current` starts
at 0 (src/script.js line 40). -/
def counterDisplays (target : JsNum) (fuel : Nat) : List JsNum × Bool :=
  updateCounterRun target fuel (JsNum.num 0)

/-- JavaScript `<=` comparison: any comparison with NaN is false. -/
def jsLe : JsNum → JsNum → Bool
  | JsNum.num a, JsNum.num b => decide (a ≤ b)
  | _, _ => false

/-! ### `parseInt` (radix unspecified), as called on `data-target` -/

/-- Leading whitespace stripped by `parseInt`. -/
def isJsSpace (c : Char) : Bool := c = ' ' ∨ c = '\t' ∨ c = '\n' ∨ c = '\r'

def isDecDigit (c : Char) : Bool := '0' ≤ c ∧ c ≤ '9'

def isHexDigit (c : Char) : Bool :=
  isDecDigit c ∨ ('a' ≤ c ∧ c ≤ 'f') ∨ ('A' ≤ c ∧ c ≤ 'F')

def decDigitVal (c : Char) : ℕ := c.toNat - '0'.toNat

def hexDigitVal (c : Char) : ℕ :=
  if isDecDigit c then c.toNat - '0'.toNat
  else if 'a' ≤ c ∧ c ≤ 'f' then c.toNat - 'a'.toNat + 10
  else c.toNat - 'A'.toNat + 10

def digitsVal (base : ℕ) (ds : List ℕ) : ℕ :=
  List.foldl (fun a d => a * base + d) 0 ds

/-- Longest leading digit run in the given base; none parsed means NaN. -/
def parseDigits (base : ℕ) (digitP : Char → Bool) (dval : Char → ℕ)
    (cs : List Char) : Option ℕ :=
  let ds := cs.takeWhile digitP
  if ds.isEmpty then none else some (digitsVal base (ds.map dval))

/-- `parseInt(s)` with no radix argument (src/script.js line 37): strip
leading whitespace, read an optional sign, detect a leading `0x`/`0X`
hexadecimal marker, then take the longest run of digits; no digits at
all gives NaN. The result is always an integer or NaN. -/
def parseIntJs (s : String) : JsNum :=
  let cs := s.toList.dropWhile isJsSpace
  let sgn : ℤ := match cs with
    | '-' :: _ => -1
    | _ => 1
  let cs2 : List Char := match cs with
    | '-' :: rest => rest
    | '+' :: rest => rest
    | _ => cs
  let body : Option ℕ := match cs2 with
    | '0' :: c :: rest =>
      if c = 'x' ∨ c = 'X' then parseDigits 16 isHexDigit hexDigitVal rest
      else parseDigits 10 isDecDigit decDigitVal cs2
    | _ => parseDigits 10 isDecDigit decDigitVal cs2
  match body with
  | none => JsNum.nan
  | some n => JsNum.num ((sgn * (n : ℤ) : ℤ) : ℚ)

/-- `parseInt(counter.getAttribute('data-target'))`: a missing attribute
makes `getAttribute` return `null`, which `parseInt` coerces to the
string `"null"` before parsing (so the result is NaN). -/
def parseTargetAttr (a : Option String) : JsNum :=
  parseIntJs (a.getD "null")

/-- The `counters.forEach` loop of `animateCounters` (src/script.js
lines 36-63): each counter element independently parses its own
`data-target` attribute and runs its own animation; the result is the
display sequence of each counter. -/
def animateCountersDisplays (attrs : List (Option String)) : List (List JsNum) :=
  attrs.map (fun a => (counterDisplays (parseTargetAttr a) 125).1)

/-! ### IntersectionObserver activation engine -/

/-- An element registered with one of the three IntersectionObservers.
`subscribed` tracks whether the observer still watches the element
(true from `observer.observe` until `observer.unobserve`);
`activations` counts how many times the activation action has run;
`payload` is the kind-specific element state the action mutates. -/
structure WatchedState (α : Type) where
  subscribed : Bool
  activations : Nat
  payload : α
deriving Repr, DecidableEq

/-- Freshly registered element: `observer.observe(el)` with no
activation yet. -/
def initWatched {α : Type} (p : α) : WatchedState α :=
  { subscribed := true, activations := 0, payload := p }

/-- One visibility notification for one element, as each of the three
observer callbacks handles it (src/script.js lines 53-60, 204-213,
382-392): the host only delivers notifications for elements still
observed; when the entry `isIntersecting`, the callback runs the
activation action and calls `observer.unobserve` on the element. -/
def observerCallbackStep {α : Type} (activate : α → α)
    (s : WatchedState α) (isIntersecting : Bool) : WatchedState α :=
  if s.subscribed && isIntersecting then
    { subscribed := false, activations := s.activations + 1,
      payload := activate s.payload }
  else s

/-- A whole history of visibility notifications for one element. -/
def runTrace {α : Type} (activate : α → α)
    (s : WatchedState α) (trace : List Bool) : WatchedState α :=
  List.foldl (observerCallbackStep activate) s trace

/-- Counter activation action: run `updateCounter` to completion and
record the sequence of displayed values (src/script.js line 56). -/
def counterActivate (target : JsNum) : List JsNum → List JsNum :=
  fun _ => (counterDisplays target 125).1

/-- Inline style of a reveal element, the three properties the code
touches. -/
structure RevealStyle where
  opacity : String
  transform : String
  transition : String
deriving Repr, DecidableEq

/-- Style applied to each reveal element at registration
(src/script.js lines 219-223). -/
def revealInitStyle : RevealStyle :=
  { opacity := "0", transform := "translateY(30px)",
    transition := "opacity 0.6s ease, transform 0.6s ease" }

/-- Reveal activation action, the body of the scheduled `setTimeout`
callback (src/script.js lines 207-210). -/
def revealActivate (st : RevealStyle) : RevealStyle :=
  { st with opacity := "1", transform := "translateY(0)" }

/-- One reveal observer callback over a whole batch (src/script.js
lines 204-213): `entries.forEach((entry, index) => ...)` schedules the
reveal effect of each intersecting entry `index * 100` milliseconds in
the future, where `index` is the position in the delivered batch.
Returns, for each batch position, the scheduled start delay (none when
the entry was not intersecting). -/
def revealBatchDelays (batch : List Bool) : List (Option Nat) :=
  (batch.enum).map (fun e => if e.2 then some (e.1 * 100) else none)

/-- A lazy-media element: its live `src` attribute and its staging
`data-lazy` attribute (absent attributes read as none). -/
structure LazyElem where
  src : Option String
  dataLazy : Option String
deriving Repr, DecidableEq

/-- Attribute-to-string coercion used when assigning `element.src`:
a `null` attribute value is coerced to the string `"null"`. -/
def jsAttrToString (a : Option String) : String := a.getD "null"

/-- Lazy-media activation action (src/script.js lines 385-388):
`element.src = element.getAttribute('data-lazy')` then
`element.removeAttribute('data-lazy')`. -/
def lazyActivate (el : LazyElem) : LazyElem :=
  { src := some (jsAttrToString el.dataLazy), dataLazy := none }

/-! ### Observer configurations -/

/-- The options bag passed to an IntersectionObserver constructor:
`threshold` and the bottom component of `rootMargin`. Host defaults are
threshold 0 and a zero root margin. -/
structure ObserverConfig where
  threshold : ℚ := 0
  rootMarginBottom : ℤ := 0
deriving Repr, DecidableEq

/-- Counter observer options: `{ threshold: 0.5 }`, no rootMargin
(src/script.js line 60). -/
def counterObserverConfig : ObserverConfig :=
  { threshold := 1/2 }

/-- Reveal observer options: `{ threshold: 0.1, rootMargin:
'0px 0px -50px 0px' }` (src/script.js lines 214-217). -/
def revealObserverConfig : ObserverConfig :=
  { threshold := 1/10, rootMarginBottom := -50 }

/-- Lazy-media observer options: the constructor is called with no
options bag at all (src/script.js line 382), so all defaults apply. -/
def lazyObserverConfig : ObserverConfig := {}

/-! ### Dark mode -/

/-- Dark-mode state: the `darkMode` key in localStorage (none when the
key is absent) and whether `document.body` carries the `dark-mode`
class. -/
structure DarkState where
  stored : Option String
  darkClass : Bool
deriving Repr, DecidableEq

/-- The string `localStorage.setItem` stores for a boolean. -/
def boolToJsString (b : Bool) : String := if b then "true" else "false"

/-- `initDarkMode` (src/script.js lines 406-410): read the key once and
apply the `dark-mode` class exactly when the stored value is the string
`"true"`. -/
def initDarkMode (stored : Option String) : DarkState :=
  { stored := stored, darkClass := stored = some "true" }

/-- The dark-mode toggle click handler (src/script.js lines 412-416):
toggle the class, then persist the new class state. -/
def toggleDarkMode (st : DarkState) : DarkState :=
  let newClass := !st.darkClass
  { stored := some (boolToJsString newClass), darkClass := newClass }

/-! ### FAQ accordion -/

/-- The FAQ click handler (src/script.js lines 74-89) acting on the
list of `active` flags of all `.faq-item` elements, clicked item at
index `j`: remember whether the clicked item was active, remove
`active` from every item, then re-add it to the clicked item only if it
was not active before. -/
def faqClick (items : List Bool) (j : Nat) : List Bool :=
  let isActive := items.getD j false
  let cleared := items.map (fun _ => false)
  if !isActive then cleared.set j true else cleared

/-! ### Counter animation lemmas -/

lemma updateCounterRun_succ (target : JsNum) (n : ℕ) (current : JsNum) :
    updateCounterRun target (n + 1) current =
      (if jsLt (jsAdd current (counterIncrement target)) target then
        (jsFloor (jsAdd current (counterIncrement target)) ::
            (updateCounterRun target n (jsAdd current (counterIncrement target))).1,
          (updateCounterRun target n (jsAdd current (counterIncrement target))).2)
      else ([target], true)) := rfl

lemma updateCounterRun_nan (n : ℕ) :
    updateCounterRun JsNum.nan (n + 1) (JsNum.num 0) = ([JsNum.nan], true) := by
  simp [updateCounterRun, jsAdd, counterIncrement, jsLt]

lemma updateCounterRun_nonpos (q : ℚ) (hq : q ≤ 0) (n : ℕ) :
    updateCounterRun (JsNum.num q) (n + 1) (JsNum.num 0) = ([JsNum.num q], true) := by
  have h : ¬ (q / 125 < q) := by
    rw [div_lt_iff₀ (by norm_num : (0:ℚ) < 125)]
    intro hlt
    nlinarith
  simp [updateCounterRun, jsAdd, counterIncrement, jsLt, h]

lemma updateCounterRun_pos_closed (q : ℚ) (hq : 0 < q) :
    ∀ (n k : ℕ), k + n = 124 →
      updateCounterRun (JsNum.num q) (n + 1) (JsNum.num ((k : ℚ) * (q / 125))) =
        ((List.range n).map
            (fun i => jsFloor (JsNum.num (((k + i + 1 : ℕ) : ℚ) * (q / 125)))) ++
          [JsNum.num q], true) := by
  intro n
  induction n with
  | zero =>
    intro k hk
    have hk124 : k = 124 := by omega
    subst hk124
    have hsum : (124 : ℚ) * (q / 125) + q / 125 = q := by ring
    have hnotlt : ¬ ((124 : ℚ) * (q / 125) + q / 125 < q) := by
      rw [hsum]
      exact lt_irrefl q
    simp [updateCounterRun, jsAdd, counterIncrement, jsLt, hnotlt]
  | succ m ih =>
    intro k hk
    have hk1 : k + 1 + m = 124 := by omega
    have hklt : (k : ℚ) + 1 < 125 := by
      have : k + 1 ≤ 124 := by omega
      have h2 : ((k + 1 : ℕ) : ℚ) ≤ 124 := by exact_mod_cast this
      push_cast at h2
      linarith
    have hstep : (k : ℚ) * (q / 125) + q / 125 = ((k + 1 : ℕ) : ℚ) * (q / 125) := by
      push_cast
      ring
    have hlt : ((k + 1 : ℕ) : ℚ) * (q / 125) < q := by
      have hq125 : (0:ℚ) < q / 125 := by positivity
      calc ((k + 1 : ℕ) : ℚ) * (q / 125) < 125 * (q / 125) := by
            apply mul_lt_mul_of_pos_right _ hq125
            push_cast
            exact hklt
        _ = q := by ring
    have ihk := ih (k + 1) hk1
    have hadd : jsAdd (JsNum.num ((k : ℚ) * (q / 125)))
        (counterIncrement (JsNum.num q)) = JsNum.num (((k + 1 : ℕ) : ℚ) * (q / 125)) := by
      simp only [jsAdd, counterIncrement]
      rw [hstep]
    have hltb : jsLt (JsNum.num (((k + 1 : ℕ) : ℚ) * (q / 125))) (JsNum.num q) = true := by
      simp only [jsLt, decide_eq_true_eq]
      exact hlt
    have hlist : jsFloor (JsNum.num (((k + 1 : ℕ) : ℚ) * (q / 125))) ::
        (List.map (fun i => jsFloor (JsNum.num (((k + 1 + i + 1 : ℕ) : ℚ) * (q / 125))))
          (List.range m) ++ [JsNum.num q]) =
      List.map (fun i => jsFloor (JsNum.num (((k + i + 1 : ℕ) : ℚ) * (q / 125))))
          (List.range (m + 1)) ++ [JsNum.num q] := by
      rw [List.range_succ_eq_map, List.map_cons, List.map_map, List.cons_append]
      congr 1
      have hmap : List.map
            ((fun i => jsFloor (JsNum.num (((k + i + 1 : ℕ) : ℚ) * (q / 125)))) ∘ Nat.succ)
            (List.range m) =
            List.map (fun i => jsFloor (JsNum.num (((k + 1 + i + 1 : ℕ) : ℚ) * (q / 125))))
            (List.range m) := by
        apply List.map_congr_left
        intro i _
        simp only [Function.comp_apply, Nat.succ_eq_add_one]
        have hi : k + (i + 1) + 1 = k + 1 + i + 1 := by omega
        rw [hi]
      rw [hmap]
    rw [updateCounterRun_succ]
    simp only [hadd, hltb, if_true, ihk]
    rw [← hlist]

lemma counterDisplays_pos (q : ℚ) (hq : 0 < q) :
    counterDisplays (JsNum.num q) 125 =
      ((List.range 124).map
          (fun i => jsFloor (JsNum.num (((i + 1 : ℕ) : ℚ) * (q / 125)))) ++
        [JsNum.num q], true) := by
  have h := updateCounterRun_pos_closed q hq 124 0 (by norm_num)
  rw [counterDisplays, (by norm_num : (125 : ℕ) = 124 + 1)]
  simpa using h

lemma counterDisplays_nonpos (q : ℚ) (hq : q ≤ 0) :
    counterDisplays (JsNum.num q) 125 = ([JsNum.num q], true) := by
  rw [counterDisplays, (by norm_num : (125 : ℕ) = 124 + 1)]
  exact updateCounterRun_nonpos q hq 124

lemma counterDisplays_nan :
    counterDisplays JsNum.nan 125 = ([JsNum.nan], true) := by
  rw [counterDisplays, (by norm_num : (125 : ℕ) = 124 + 1)]
  exact updateCounterRun_nan 124

/-- C8: for every possible parsed `data-target` value — positive, zero,
negative or NaN — the `updateCounter` recursion terminates after
finitely many frames (125 suffice): the loop stops as soon as `current`
is not strictly below the target, which a positive target reaches after
exactly 125 fixed increments, a non-positive target reaches on the
first step, and a NaN target reaches immediately because every
comparison with NaN is false. -/
theorem counter_loop_terminates (target : JsNum) :
    (counterDisplays target 125).2 = true := by
  cases target with
  | nan => rw [counterDisplays_nan]
  | num q =>
    rcases le_or_lt q 0 with h | h
    · rw [counterDisplays_nonpos q h]
    · rw [counterDisplays_pos q h]

/-- C2: for every counter whose `data-target` attribute parses to an
integer V, the animation displays a sequence of integer values, each
strictly less than V and monotonically non-decreasing, and the final
written value is exactly V (the terminal branch writes `target`
itself, not an accumulated float). -/
theorem counter_displays_final_exact (s : String) (V : ℤ)
    (h : parseIntJs s = JsNum.num (V : ℚ)) :
    ∃ l : List JsNum,
      counterDisplays (parseIntJs s) 125 = (l ++ [JsNum.num (V : ℚ)], true) ∧
      (∀ x ∈ l, ∃ k : ℤ, x = JsNum.num (k : ℚ) ∧ k < V) ∧
      l.Pairwise (fun a b => jsLe a b = true) := by
  rw [h]
  rcases le_or_lt V 0 with hV | hV
  · refine ⟨[], ?_, by simp, List.Pairwise.nil⟩
    rw [counterDisplays_nonpos (V : ℚ) (by exact_mod_cast hV)]
    simp
  · have hVq : (0 : ℚ) < (V : ℚ) := by exact_mod_cast hV
    refine ⟨(List.range 124).map
        (fun i => jsFloor (JsNum.num (((i + 1 : ℕ) : ℚ) * ((V : ℚ) / 125)))), ?_, ?_, ?_⟩
    · exact counterDisplays_pos (V : ℚ) hVq
    · intro x hx
      simp only [List.mem_map, List.mem_range] at hx
      obtain ⟨i, hi, rfl⟩ := hx
      refine ⟨⌊((i + 1 : ℕ) : ℚ) * ((V : ℚ) / 125)⌋, rfl, ?_⟩
      rw [Int.floor_lt]
      have h125 : ((i + 1 : ℕ) : ℚ) < 125 := by
        have hle : i + 1 ≤ 124 := by omega
        have : ((i + 1 : ℕ) : ℚ) ≤ 124 := by exact_mod_cast hle
        linarith
      calc ((i + 1 : ℕ) : ℚ) * ((V : ℚ) / 125) < 125 * ((V : ℚ) / 125) :=
            mul_lt_mul_of_pos_right h125 (by positivity)
        _ = (V : ℚ) := by ring
    · rw [List.pairwise_map]
      refine (List.pairwise_lt_range 124).imp ?_
      intro a b hab
      simp only [jsFloor, jsLe, decide_eq_true_eq]
      have hmul : ((a + 1 : ℕ) : ℚ) * ((V : ℚ) / 125) ≤
          ((b + 1 : ℕ) : ℚ) * ((V : ℚ) / 125) := by
        apply mul_le_mul_of_nonneg_right _ (by positivity)
        exact_mod_cast Nat.succ_le_succ (le_of_lt hab)
      exact_mod_cast Int.floor_mono hmul

/-- C2 witness: the counter configured with target `"1280"`. -/
theorem counter_displays_final_exact_witness :
    parseIntJs "1280" = JsNum.num ((1280 : ℤ) : ℚ) ∧
    (∃ l : List JsNum,
      counterDisplays (parseIntJs "1280") 125 = (l ++ [JsNum.num ((1280 : ℤ) : ℚ)], true) ∧
      (∀ x ∈ l, ∃ k : ℤ, x = JsNum.num (k : ℚ) ∧ k < 1280) ∧
      l.Pairwise (fun a b => jsLe a b = true)) := by
  have h : parseIntJs "1280" = JsNum.num ((1280 : ℤ) : ℚ) := by decide
  exact ⟨h, counter_displays_final_exact "1280" 1280 h⟩

/-- C3 counterexample: a counter whose `data-target` attribute is
missing has `getAttribute` return null, which parses to NaN; the
activation then runs the terminal branch immediately and writes NaN to
the display — not the safe default 0 the claim describes. -/
theorem counter_malformed_countereg :
    parseTargetAttr none = JsNum.nan ∧
    counterDisplays (parseTargetAttr none) 125 = ([JsNum.nan], true) ∧
    JsNum.nan ≠ JsNum.num 0 := by
  have h : parseTargetAttr none = JsNum.nan := by decide
  refine ⟨h, ?_, by decide⟩
  rw [h, counterDisplays_nan]

/-- C3 amended: for a counter whose configured target is missing or
unparsable (parses to NaN), activation neither throws nor runs a
non-terminating loop: because every comparison with NaN is false, the
loop terminates on its very first step, displaying NaN (not 0); and
each counter entry's animation depends only on its own attribute, so a
malformed entry does not prevent activation of any other entry. -/
theorem counter_malformed_safe (s : String) (h : parseIntJs s = JsNum.nan) :
    counterDisplays (parseIntJs s) 125 = ([JsNum.nan], true) ∧
    ∀ (attrs : List (Option String)) (i : Nat),
      (animateCountersDisplays attrs).get? i =
        (attrs.get? i).map (fun a => (counterDisplays (parseTargetAttr a) 125).1) := by
  constructor
  · rw [h, counterDisplays_nan]
  · intro attrs i
    simp [animateCountersDisplays]

/-- C3 witness: the unparsable attribute value `"abc"`. -/
theorem counter_malformed_safe_witness :
    parseIntJs "abc" = JsNum.nan ∧
    counterDisplays (parseIntJs "abc") 125 = ([JsNum.nan], true) := by
  have h : parseIntJs "abc" = JsNum.nan := by decide
  exact ⟨h, (counter_malformed_safe "abc" h).1⟩

/-! ### Activation engine lemmas -/

lemma runTrace_cons {α : Type} (activate : α → α) (s : WatchedState α)
    (b : Bool) (bs : List Bool) :
    runTrace activate s (b :: bs) =
      runTrace activate (observerCallbackStep activate s b) bs := rfl

lemma runTrace_append {α : Type} (activate : α → α) (s : WatchedState α)
    (l1 l2 : List Bool) :
    runTrace activate s (l1 ++ l2) = runTrace activate (runTrace activate s l1) l2 :=
  List.foldl_append _ _ _ _

lemma observerCallbackStep_not_subscribed {α : Type} (activate : α → α)
    (s : WatchedState α) (h : s.subscribed = false) (b : Bool) :
    observerCallbackStep activate s b = s := by
  simp [observerCallbackStep, h]

lemma observerCallbackStep_false {α : Type} (activate : α → α) (s : WatchedState α) :
    observerCallbackStep activate s false = s := by
  simp [observerCallbackStep]

lemma runTrace_not_subscribed {α : Type} (activate : α → α) (s : WatchedState α)
    (h : s.subscribed = false) (trace : List Bool) :
    runTrace activate s trace = s := by
  induction trace with
  | nil => rfl
  | cons b bs ih =>
    rw [runTrace_cons, observerCallbackStep_not_subscribed activate s h b]
    exact ih

lemma runTrace_all_false {α : Type} (activate : α → α) (s : WatchedState α)
    (trace : List Bool) (h : ∀ b ∈ trace, b = false) :
    runTrace activate s trace = s := by
  induction trace with
  | nil => rfl
  | cons b bs ih =>
    have hb : b = false := h b (List.mem_cons_self b bs)
    rw [runTrace_cons, hb, observerCallbackStep_false]
    exact ih (fun x hx => h x (List.mem_cons_of_mem b hx))

lemma runTrace_first_intersect {α : Type} (activate : α → α) (p : α)
    (pre post : List Bool) (h : ∀ b ∈ pre, b = false) :
    runTrace activate (initWatched p) (pre ++ true :: post) =
      { subscribed := false, activations := 1, payload := activate p } := by
  rw [runTrace_append, runTrace_all_false activate _ pre h, runTrace_cons]
  have hstep : observerCallbackStep activate (initWatched p) true =
      { subscribed := false, activations := 1, payload := activate p } := by
    simp [observerCallbackStep, initWatched]
  rw [hstep]
  exact runTrace_not_subscribed activate _ rfl post

lemma runTrace_activations_le_one {α : Type} (activate : α → α) (s : WatchedState α)
    (trace : List Bool) (h1 : s.activations ≤ 1)
    (h2 : s.subscribed = true → s.activations = 0) :
    (runTrace activate s trace).activations ≤ 1 := by
  induction trace generalizing s with
  | nil => exact h1
  | cons b bs ih =>
    rw [runTrace_cons]
    apply ih
    · unfold observerCallbackStep
      split
      · next hcond =>
        have hs : s.subscribed = true := by
          rcases Bool.and_eq_true _ _ |>.mp hcond with ⟨hsub, _⟩
          exact hsub
        simp [h2 hs]
      · exact h1
    · unfold observerCallbackStep
      split
      · intro hsub
        simp at hsub
      · exact h2

/-- C1: for every registered entry of each kind (counter, reveal,
lazy-media), the activation action runs at most once over any history
of visibility notifications, because the first intersecting
notification runs the action, sets the count to one, and unsubscribes
the element, after which no notification can change the state again;
in particular on a history of non-intersecting reports followed by an
intersecting one, the action runs exactly once and the element ends
unsubscribed, whatever notifications follow. -/
theorem activation_at_most_once :
    (∀ (target : JsNum) (p : List JsNum) (trace : List Bool),
        (runTrace (counterActivate target) (initWatched p) trace).activations ≤ 1) ∧
    (∀ (st : RevealStyle) (trace : List Bool),
        (runTrace revealActivate (initWatched st) trace).activations ≤ 1) ∧
    (∀ (el : LazyElem) (trace : List Bool),
        (runTrace lazyActivate (initWatched el) trace).activations ≤ 1) ∧
    (∀ (target : JsNum) (p : List JsNum) (pre post : List Bool),
        (∀ b ∈ pre, b = false) →
        runTrace (counterActivate target) (initWatched p) (pre ++ true :: post) =
          { subscribed := false, activations := 1, payload := counterActivate target p }) := by
  refine ⟨?_, ?_, ?_, ?_⟩
  · intro target p trace
    exact runTrace_activations_le_one _ _ _ (by simp [initWatched]) (fun _ => rfl)
  · intro st trace
    exact runTrace_activations_le_one _ _ _ (by simp [initWatched]) (fun _ => rfl)
  · intro el trace
    exact runTrace_activations_le_one _ _ _ (by simp [initWatched]) (fun _ => rfl)
  · intro target p pre post hpre
    exact runTrace_first_intersect _ _ _ _ hpre

/-- C1 witness: a counter entry that is reported non-intersecting, then
intersecting, then intersecting again: it activates exactly once. -/
theorem activation_at_most_once_witness :
    (∀ b ∈ ([false] : List Bool), b = false) ∧
    runTrace (counterActivate (JsNum.num 5)) (initWatched []) ([false] ++ true :: [true]) =
      { subscribed := false, activations := 1,
        payload := counterActivate (JsNum.num 5) [] } :=
  ⟨by decide, activation_at_most_once.2.2.2 (JsNum.num 5) [] [false] [true] (by decide)⟩

/-- C4: a lazy-media element's live `src` attribute is never populated
before the element is reported intersecting at least once (over any
history of non-intersecting reports it stays absent); on the first
intersecting report, the value staged in `data-lazy` is copied into
`src` and the staging attribute is removed, and no later notification
changes the element again. -/
theorem lazy_src_only_after_first_visible (d : Option String) (pre post : List Bool)
    (hpre : ∀ b ∈ pre, b = false) :
    (runTrace lazyActivate (initWatched ⟨none, d⟩) pre).payload.src = none ∧
    runTrace lazyActivate (initWatched ⟨none, d⟩) (pre ++ true :: post) =
      { subscribed := false, activations := 1,
        payload := { src := some (jsAttrToString d), dataLazy := none } } := by
  constructor
  · rw [runTrace_all_false _ _ _ hpre]
    rfl
  · rw [runTrace_first_intersect _ _ _ _ hpre]
    rfl

/-- C4 witness: a lazy image staged as `"img.png"`, reported
non-intersecting twice before its first intersection. -/
theorem lazy_src_only_after_first_visible_witness :
    (∀ b ∈ ([false, false] : List Bool), b = false) ∧
    ((runTrace lazyActivate (initWatched ⟨none, some "img.png"⟩) [false, false]).payload.src
        = none ∧
      runTrace lazyActivate (initWatched ⟨none, some "img.png"⟩)
          ([false, false] ++ true :: [true]) =
        { subscribed := false, activations := 1,
          payload := { src := some (jsAttrToString (some "img.png")), dataLazy := none } }) :=
  ⟨by decide,
    lazy_src_only_after_first_visible (some "img.png") [false, false] [true] (by decide)⟩

/-! ### Reveal stagger lemmas -/

lemma revealDelays_allTrue (l : List Bool) (h : ∀ b ∈ l, b = true) :
    ∀ n : ℕ, (List.enumFrom n l).map (fun e => if e.2 then some (e.1 * 100) else none) =
      (List.range l.length).map (fun i => some ((n + i) * 100)) := by
  induction l with
  | nil => intro n; rfl
  | cons b bs ih =>
    intro n
    have hb : b = true := h b (List.mem_cons_self b bs)
    subst hb
    rw [List.enumFrom_cons, List.map_cons,
      ih (fun x hx => h x (List.mem_cons_of_mem _ hx)) (n + 1)]
    simp only [if_true, List.length_cons]
    rw [List.range_succ_eq_map, List.map_cons, List.map_map]
    have hmap : List.map ((fun i => some ((n + i) * 100)) ∘ Nat.succ) (List.range bs.length) =
        List.map (fun i => some ((n + 1 + i) * 100)) (List.range bs.length) := by
      apply List.map_congr_left
      intro i _
      simp only [Function.comp_apply, Nat.succ_eq_add_one]
      congr 1
      omega
    rw [hmap]
    simp

lemma chain'_succ_range (n : ℕ) :
    List.Chain' (fun a b : ℕ => b = a + 1) (List.range n) := by
  cases n with
  | zero => simp
  | succ m =>
    rw [List.chain'_range_succ]
    intro k _
    rfl

/-- C6: for a batch of reveal entries all reported intersecting, the
entry at batch position i has its reveal effect scheduled to start
i * 100 milliseconds after the callback, so the scheduled start times
are non-decreasing and consecutive entries are separated by exactly
100 ms; the effect itself transitions the element from the registration
style (opacity 0, translateY(30px), 0.6 s ease transitions) to opacity
1 and translateY(0). -/
theorem reveal_stagger (batch : List Bool) (h : ∀ b ∈ batch, b = true) :
    revealBatchDelays batch =
      (List.range batch.length).map (fun i => some (i * 100)) ∧
    List.Chain' (fun a b : Option ℕ => ∃ x, a = some x ∧ b = some (x + 100))
      (revealBatchDelays batch) ∧
    revealInitStyle.opacity = "0" ∧
    revealInitStyle.transform = "translateY(30px)" ∧
    revealInitStyle.transition = "opacity 0.6s ease, transform 0.6s ease" ∧
    revealActivate revealInitStyle =
      { opacity := "1", transform := "translateY(0)",
        transition := "opacity 0.6s ease, transform 0.6s ease" } := by
  have hdel : revealBatchDelays batch =
      (List.range batch.length).map (fun i => some (i * 100)) := by
    have h0 := revealDelays_allTrue batch h 0
    simp only [Nat.zero_add] at h0
    exact h0
  refine ⟨hdel, ?_, rfl, rfl, rfl, rfl⟩
  rw [hdel, List.chain'_map]
  refine (chain'_succ_range batch.length).imp ?_
  intro a b hab
  refine ⟨a * 100, rfl, ?_⟩
  rw [hab]
  congr 1
  ring

/-- C6 witness: three reveal entries reported visible in the same
batch, at positions 0, 1 and 2. -/
theorem reveal_stagger_witness :
    (∀ b ∈ ([true, true, true] : List Bool), b = true) ∧
    (revealBatchDelays [true, true, true] =
        (List.range 3).map (fun i => some (i * 100)) ∧
      List.Chain' (fun a b : Option ℕ => ∃ x, a = some x ∧ b = some (x + 100))
        (revealBatchDelays [true, true, true]) ∧
      revealInitStyle.opacity = "0" ∧
      revealInitStyle.transform = "translateY(30px)" ∧
      revealInitStyle.transition = "opacity 0.6s ease, transform 0.6s ease" ∧
      revealActivate revealInitStyle =
        { opacity := "1", transform := "translateY(0)",
          transition := "opacity 0.6s ease, transform 0.6s ease" }) :=
  ⟨by decide, reveal_stagger [true, true, true] (by decide)⟩

/-- C7 counterexample: the claim fails for two of the three observers
at the concrete configurations in the source: the counter observer
passes no rootMargin, so its bottom root margin is the default 0 (not
negative), and the lazy-media observer is constructed with no options
at all, so its threshold is the default 0 (outside [0.1, 0.5]) and its
bottom root margin is also 0. -/
theorem observer_config_countereg :
    counterObserverConfig.rootMarginBottom = 0 ∧
    lazyObserverConfig.threshold = 0 ∧
    lazyObserverConfig.rootMarginBottom = 0 ∧
    ¬(counterObserverConfig.rootMarginBottom < 0 ∧
      (1/10 : ℚ) ≤ lazyObserverConfig.threshold ∧
      lazyObserverConfig.rootMarginBottom < 0) := by decide

/-- C7 amended: only the reveal observer is configured with both an
explicit threshold in the 0.1-0.5 range (0.1) and a negative bottom
root margin (-50px); the counter observer has an explicit threshold in
that range (0.5) but the default zero root margin, and the lazy-media
observer is constructed without an options bag, so it has the default
threshold 0 and a zero root margin. -/
theorem observer_configs :
    revealObserverConfig.threshold = 1/10 ∧
    (1/10 : ℚ) ≤ revealObserverConfig.threshold ∧
    revealObserverConfig.threshold ≤ 1/2 ∧
    revealObserverConfig.rootMarginBottom = -50 ∧
    revealObserverConfig.rootMarginBottom < 0 ∧
    counterObserverConfig.threshold = 1/2 ∧
    counterObserverConfig.rootMarginBottom = 0 ∧
    lazyObserverConfig.threshold = 0 ∧
    lazyObserverConfig.rootMarginBottom = 0 := by
  norm_num [revealObserverConfig, counterObserverConfig, lazyObserverConfig]

/-! ### FAQ accordion lemmas -/

lemma count_true_set_all_false (l : List Bool) (h : ∀ x ∈ l, x = false) (j : ℕ) :
    (l.set j true).count true ≤ 1 := by
  induction l generalizing j with
  | nil => simp
  | cons a as ih =>
    have ha : a = false := h a (List.mem_cons_self a as)
    have has : ∀ x ∈ as, x = false := fun x hx => h x (List.mem_cons_of_mem a hx)
    cases j with
    | zero =>
      rw [List.set_cons_zero, List.count_cons]
      have hz : as.count true = 0 := by
        rw [List.count_eq_zero]
        intro htrue
        exact absurd (has true htrue) (by simp)
      simp [hz]
    | succ m =>
      rw [List.set_cons_succ, List.count_cons, ha]
      have := ih has m
      simp only [show ((false == true) = true) = False by simp, if_false]
      omega

/-- C9: after any click on an FAQ question, at most one FAQ item
carries the `active` class, because the handler first removes `active`
from every item and then re-adds it to the clicked item's parent only;
and when the clicked item was already active, it is not re-added, so
every item ends up inactive. -/
theorem faq_at_most_one_active (items : List Bool) (j : ℕ) :
    (faqClick items j).count true ≤ 1 ∧
    (items.getD j false = true → faqClick items j = items.map (fun _ => false)) := by
  constructor
  · rw [faqClick]
    rcases hact : items.getD j false
    · simp only [hact, Bool.not_false, if_true]
      exact count_true_set_all_false _ (by simp) j
    · simp [hact, List.count_replicate]
  · intro h
    rw [faqClick, h]
    simp

/-- C9 witness: two FAQ items where the second is open and is clicked
again: everything closes. -/
theorem faq_at_most_one_active_witness :
    ([false, true].getD 1 false = true) ∧
    (faqClick [false, true] 1).count true ≤ 1 ∧
    faqClick [false, true] 1 = [false, false] := by
  refine ⟨by decide, (faq_at_most_one_active [false, true] 1).1, ?_⟩
  have h := (faq_at_most_one_active [false, true] 1).2 (by decide)
  simpa using h

/-! ### Dark mode theorems -/

/-- C5 counterexample: on a first visit the `darkMode` key is absent;
after two toggles the key holds the string `"false"`, so the persisted
preference does not return to its pre-toggle value (the absent key),
contrary to the claim. -/
theorem dark_double_toggle_countereg :
    (initDarkMode none).stored = none ∧
    (toggleDarkMode (toggleDarkMode (initDarkMode none))).stored = some "false" ∧
    some "false" ≠ (none : Option String) := by
  refine ⟨rfl, rfl, by simp⟩

/-- C5 amended: toggling dark mode twice always returns the visual
state (the `dark-mode` class on the body) to its value before the first
toggle — unconditionally, whatever the stored key held — and each
toggle writes back exactly the canonical string of the new visual
state; the whole state (key included) returns to its pre-toggle value
provided the key already held the canonical persisted form of the
visual state, as it does after any earlier toggle. When the key was
absent or held a non-canonical string before the first toggle, the
visual state still returns to its original value but the key is
canonicalized rather than restored. -/
theorem dark_double_toggle (st : DarkState) :
    (toggleDarkMode (toggleDarkMode st)).darkClass = st.darkClass ∧
    (toggleDarkMode st).stored =
      some (boolToJsString (toggleDarkMode st).darkClass) ∧
    (st.stored = some (boolToJsString st.darkClass) →
      toggleDarkMode (toggleDarkMode st) = st) := by
  obtain ⟨stored, dc⟩ := st
  refine ⟨by cases dc <;> simp [toggleDarkMode], by cases dc <;> simp [toggleDarkMode], ?_⟩
  intro h
  simp only at h
  subst h
  cases dc <;> simp [toggleDarkMode, boolToJsString]

/-- C5 witness: a session initialized from a persisted dark preference
restores its full state on double-toggle, and a session with an absent
key still restores its visual state. -/
theorem dark_double_toggle_witness :
    (toggleDarkMode (toggleDarkMode (initDarkMode (some "true")))).darkClass =
      (initDarkMode (some "true")).darkClass ∧
    toggleDarkMode (toggleDarkMode (initDarkMode (some "true"))) =
      initDarkMode (some "true") ∧
    (toggleDarkMode (toggleDarkMode (initDarkMode none))).darkClass =
      (initDarkMode none).darkClass :=
  ⟨(dark_double_toggle (initDarkMode (some "true"))).1,
    (dark_double_toggle (initDarkMode (some "true"))).2.2 (by decide),
    (dark_double_toggle (initDarkMode none)).1⟩

/-- C10: at dark-mode initialization the `dark-mode` class is applied
if and only if the stored `darkMode` value is exactly the string
`"true"` — an absent key or any other string yields light mode — and
every toggle writes back only the strings `"true"` or `"false"`. -/
theorem dark_init_exact_true_toggle_canonical :
    (∀ stored : Option String,
        ((initDarkMode stored).darkClass = true ↔ stored = some "true")) ∧
    (∀ st : DarkState,
        (toggleDarkMode st).stored = some "true" ∨
        (toggleDarkMode st).stored = some "false") := by
  constructor
  · intro stored
    simp [initDarkMode]
  · intro st
    cases hdc : st.darkClass
    · left
      simp [toggleDarkMode, hdc, boolToJsString]
    · right
      simp [toggleDarkMode, hdc, boolToJsString]

end Script
